import Mathlib

/-! Shallow embedding of the finance-equalizer server (src/index.js): the
Mongo-backed record store, the CRUD route handlers, and the two statistics
endpoints, with the aggregation pipelines modelled as list functions. -/

/-- Transaction record fields other than the id, as sent by clients. A field
a client omits is none, matching a missing JSON field; the patch route
stores such fields back as null through the literal six-field set. -/
structure FinanceFields where
  title : Option String
  amount : Option Int
  description : Option String
  date : Option String
  category : Option String
  type : Option String
deriving DecidableEq

/-- Stored document: the generated identifier plus the client fields.
ObjectId values are modelled as natural numbers. -/
structure FinanceDoc where
  _id : Nat
  data : FinanceFields
deriving DecidableEq

/-- Decide whether a character is a hexadecimal digit. -/
def isHexChar (c : Char) : Bool :=
  c.isDigit || ('a' ≤ c && c ≤ 'f') || ('A' ≤ c && c ≤ 'F')

/-- Numeric value of a hexadecimal digit character. -/
def hexVal (c : Char) : Nat :=
  if c.isDigit then c.toNat - 48
  else if 'a' ≤ c && c ≤ 'f' then c.toNat - 87
  else c.toNat - 55

/-- Model of the ObjectId constructor on a path parameter: it accepts a
24-character hexadecimal string and throws a BSONError on anything else. -/
def parseObjectId (s : String) : Option Nat :=
  if s.data.length = 24 && s.data.all isHexChar then
    some (s.data.foldl (fun n c => 16 * n + hexVal c) 0)
  else none

/-- Acknowledgment sent back by the create route. -/
structure InsertResult where
  acknowledged : Bool
  insertedId : Nat
deriving DecidableEq

/-- Largest identifier occurring in the store. -/
def maxId (store : List FinanceDoc) : Nat :=
  store.foldr (fun r n => max r._id n) 0

/-- Identifier the driver assigns to a newly inserted document, modelled as
a fresh number that occurs nowhere in the store. -/
def freshId (store : List FinanceDoc) : Nat := maxId store + 1

/-- Model of insertOne: append the document under a freshly generated id and
report that id. -/
def insertOne (store : List FinanceDoc) (fields : FinanceFields) :
    List FinanceDoc × Nat :=
  (store ++ [⟨freshId store, fields⟩], freshId store)

/-- Model of findOne with an id filter: the first document with that id, or
none when no document matches. -/
def findOne (store : List FinanceDoc) (oid : Nat) : Option FinanceDoc :=
  store.find? fun r => r._id = oid

/-- Acknowledgment of the delete route. -/
structure DeleteResult where
  acknowledged : Bool
  deletedCount : Nat
deriving DecidableEq

/-- Model of deleteOne with an id filter: remove the first matching document
and report how many documents were removed. -/
def deleteOne (store : List FinanceDoc) (oid : Nat) :
    List FinanceDoc × DeleteResult :=
  (store.eraseP (fun r => r._id = oid),
   ⟨true, if store.any (fun r => r._id = oid) then 1 else 0⟩)

/-- Acknowledgment of the update route. -/
structure UpdateResult where
  acknowledged : Bool
  matchedCount : Nat
  modifiedCount : Nat
deriving DecidableEq

/-- Replace every mutable field of a document by the corresponding patch
field, as the literal six-field set document does; the id is kept. -/
def setFields (patch : FinanceFields) (r : FinanceDoc) : FinanceDoc :=
  { r with data := patch }

/-- Apply f to the first element satisfying p, keeping the rest. -/
def updateFirst (p : FinanceDoc → Bool) (f : FinanceDoc → FinanceDoc) :
    List FinanceDoc → List FinanceDoc
  | [] => []
  | r :: rest => if p r then f r :: rest else r :: updateFirst p f rest

/-- Model of updateOne with the six-field set document. -/
def updateOne (store : List FinanceDoc) (oid : Nat) (patch : FinanceFields) :
    List FinanceDoc × UpdateResult :=
  (updateFirst (fun r => r._id = oid) (setFields patch) store,
   ⟨true, if store.any (fun r => r._id = oid) then 1 else 0,
    match store.find? (fun r => r._id = oid) with
    | none => 0
    | some r => if setFields patch r = r then 0 else 1⟩)

/-- Calendar date produced by parsing a YYYY-MM-DD string. -/
structure YMD where
  year : Nat
  month : Nat
  day : Nat
deriving DecidableEq

/-- Gregorian leap year test. -/
def isLeapYear (y : Nat) : Bool :=
  (y % 4 = 0 && y % 100 ≠ 0) || y % 400 = 0

/-- Number of days of a month in a given year. -/
def daysInMonth (y m : Nat) : Nat :=
  if m = 2 then (if isLeapYear y then 29 else 28)
  else if m = 4 || m = 6 || m = 9 || m = 11 then 30
  else 31

/-- Split a character list at dash characters. -/
def splitDash : List Char → List (List Char)
  | [] => [[]]
  | c :: rest =>
    if c = '-' then [] :: splitDash rest
    else
      match splitDash rest with
      | [] => [[c]]
      | g :: gs => (c :: g) :: gs

/-- Value of a list of decimal digit characters. -/
def digitsToNat (cs : List Char) : Nat :=
  cs.foldl (fun n c => 10 * n + (c.toNat - 48)) 0

/-- Model of dateFromString with the strict year-month-day format string:
four year digits, two month digits and two day digits separated by dashes,
with the month and day in calendar range; anything else is a parse error. -/
def parseYMD (s : String) : Option YMD :=
  match splitDash s.data with
  | [ys, ms, ds] =>
    if ys.length = 4 && ms.length = 2 && ds.length = 2
        && ys.all Char.isDigit && ms.all Char.isDigit && ds.all Char.isDigit then
      let y := digitsToNat ys
      let m := digitsToNat ms
      let d := digitsToNat ds
      if 1 ≤ m && m ≤ 12 && 1 ≤ d && d ≤ daysInMonth y m then some ⟨y, m, d⟩
      else none
    else none
  | _ => none

/-- Amount a record contributes where a pipeline sums the amount field; a
missing amount is skipped by the sum, hence contributes zero. -/
def amountOf (r : FinanceDoc) : Int := r.data.amount.getD 0

/-- Contribution of one record to a totalExpense accumulator: the
conditional picks the amount when the type field equals the expense tag and
the literal zero otherwise. -/
def expenseContrib (r : FinanceDoc) : Int :=
  if r.data.type = some "expense" then amountOf r else 0

/-- Contribution of one record to a totalIncome accumulator. -/
def incomeContrib (r : FinanceDoc) : Int :=
  if r.data.type = some "income" then amountOf r else 0

/-- Conditional expense sum over a list of records. -/
def sumExpense (l : List FinanceDoc) : Int := (l.map expenseContrib).sum

/-- Conditional income sum over a list of records. -/
def sumIncome (l : List FinanceDoc) : Int := (l.map incomeContrib).sum

/-- Insert an element into a list assumed sorted for le. -/
def insertSorted {α : Type} (le : α → α → Bool) (a : α) : List α → List α
  | [] => [a]
  | b :: l => if le a b then a :: b :: l else b :: insertSorted le a l

/-- Insertion sort; models the pipeline sort stages, whose input order from
the preceding group stage is unspecified. -/
def sortBy {α : Type} (le : α → α → Bool) : List α → List α
  | [] => []
  | a :: l => insertSorted le a (sortBy le l)

/-- Year and month of a record as the monthly facet computes them: the date
string must be present and must parse. A missing date makes dateFromString
yield null and the year operator then fails the pipeline; an unparseable
string already fails dateFromString itself. -/
def recordYM (r : FinanceDoc) : Option (Nat × Nat) :=
  match r.data.date with
  | none => none
  | some s => (parseYMD s).map fun d => (d.year, d.month)

/-- Entry of the monthly facet group stage. -/
structure MonthlyStat where
  year : Nat
  month : Nat
  totalExpense : Int
  totalIncome : Int
deriving DecidableEq

/-- Comparison of the monthly sort stage: ascending by year, then month. -/
def monthLE (a b : MonthlyStat) : Bool :=
  a.year < b.year || (a.year = b.year && a.month ≤ b.month)

/-- Group entry of the monthly facet for one year-month key: conditional
sums over exactly the records carrying that key. -/
def monthEntry (l : List FinanceDoc) (ym : Nat × Nat) : MonthlyStat :=
  { year := ym.1, month := ym.2,
    totalExpense := sumExpense (l.filter fun r => recordYM r = some ym),
    totalIncome := sumIncome (l.filter fun r => recordYM r = some ym) }

/-- Group stage of the monthly facet: one entry for each distinct year-month
key, in unspecified order. -/
def monthlyGroups (l : List FinanceDoc) : List MonthlyStat :=
  ((l.filterMap recordYM).dedup).map (monthEntry l)

/-- Monthly facet: derive the parsed date, group by year and month, sort
ascending; a record whose date does not parse fails the whole pipeline. -/
def monthlyStatsFacet (l : List FinanceDoc) : Except String (List MonthlyStat) :=
  if l.all (fun r => (recordYM r).isSome) then
    Except.ok (sortBy monthLE (monthlyGroups l))
  else Except.error "an invalid date string was specified"

/-- Entry of the totalStats facet. -/
structure TotalStats where
  totalExpense : Int
  totalIncome : Int
  totalTransactions : Nat
deriving DecidableEq

/-- totalStats facet: the group stage with the constant null key yields one
group for a nonempty input and no group at all for an empty input. -/
def totalStatsFacet (l : List FinanceDoc) : List TotalStats :=
  match l with
  | [] => []
  | _ :: _ => [⟨sumExpense l, sumIncome l, l.length⟩]

/-- Entry of the categoryStats facet. -/
structure CatTotals where
  _id : Option String
  totalExpense : Int
  totalIncome : Int
deriving DecidableEq

/-- categoryStats facet: group by the category field with the conditional
sums; this facet has no sort stage. -/
def categoryStatsFacet (l : List FinanceDoc) : List CatTotals :=
  ((l.map fun r => r.data.category).dedup).map fun c =>
    { _id := c,
      totalExpense := sumExpense (l.filter fun r => r.data.category = c),
      totalIncome := sumIncome (l.filter fun r => r.data.category = c) }

/-- Body of a successful finance-stats response. -/
structure FinanceStatsResponse where
  totalExpense : Int
  totalIncome : Int
  totalTransactions : Nat
  categoryStats : List CatTotals
  monthlyStats : List MonthlyStat
deriving DecidableEq

/-- Run the three facets and format the response by reading the fields of
the first totalStats group. For an empty store that group is absent and the
field access throws, which the surrounding try-catch turns into the same
error path as a pipeline failure. -/
def computeFinanceStats (l : List FinanceDoc) :
    Except String FinanceStatsResponse :=
  match monthlyStatsFacet l with
  | Except.error e => Except.error e
  | Except.ok ms =>
    match totalStatsFacet l with
    | [] => Except.error "TypeError: cannot read totalExpense of undefined"
    | t :: _ =>
      Except.ok ⟨t.totalExpense, t.totalIncome, t.totalTransactions,
        categoryStatsFacet l, ms⟩

/-- Outcome of the finance-stats route. -/
inductive StatsRouteResult where
  | success (resp : FinanceStatsResponse)
  | failure (status : Nat) (msg : String)
deriving DecidableEq

/-- Handler of the finance-stats route: respond with the stats, or with a
500 status and a short message when the computation fails; the store is
only read, never written. -/
def financeStatsHandler (store : List FinanceDoc) :
    List FinanceDoc × StatsRouteResult :=
  (store,
   match computeFinanceStats store with
   | Except.ok r => StatsRouteResult.success r
   | Except.error _ => StatsRouteResult.failure 500 "Error fetching finance stats")

/-- Entry of a category ranking list. -/
structure CategoryStat where
  _id : Option String
  categoryCount : Nat
  totalAmount : Int
deriving DecidableEq

/-- Comparison of the category ranking sort stage: descending by total. -/
def amountGE (a b : CategoryStat) : Bool :=
  b.totalAmount ≤ a.totalAmount

/-- Group stage shared by the two category ranking pipelines: filter to one
type tag, then one entry per distinct category of the filtered records, with
a record count and an amount sum, in unspecified order. -/
def categoryGroups (ty : String) (l : List FinanceDoc) : List CategoryStat :=
  (((l.filter fun r => r.data.type = some ty).map fun r => r.data.category).dedup).map
    fun c =>
      { _id := c,
        categoryCount := ((l.filter fun r => r.data.type = some ty).filter
          fun r => r.data.category = c).length,
        totalAmount := (((l.filter fun r => r.data.type = some ty).filter
          fun r => r.data.category = c).map amountOf).sum }

/-- Shared shape of the two category ranking pipelines: match one type tag,
group by category with a record count and an amount sum, sort descending. -/
def categoryPipeline (ty : String) (l : List FinanceDoc) : List CategoryStat :=
  sortBy amountGE (categoryGroups ty l)

/-- Expense ranking pipeline of the category-stats route. -/
def expenseStatsPipeline (l : List FinanceDoc) : List CategoryStat :=
  categoryPipeline "expense" l

/-- Income ranking pipeline of the category-stats route. -/
def incomeStatsPipeline (l : List FinanceDoc) : List CategoryStat :=
  categoryPipeline "income" l

/-- Body of a category-stats response. -/
structure CategoryStatsResponse where
  expenseStats : List CategoryStat
  incomeStats : List CategoryStat
deriving DecidableEq

/-- Run both ranking pipelines. -/
def computeCategoryStats (l : List FinanceDoc) : CategoryStatsResponse :=
  ⟨expenseStatsPipeline l, incomeStatsPipeline l⟩

/-- Handler of the category-stats route; the store is only read. -/
def categoryStatsHandler (store : List FinanceDoc) :
    List FinanceDoc × CategoryStatsResponse :=
  (store, computeCategoryStats store)

/-- Handler of the create route. -/
def addFinanceHandler (store : List FinanceDoc) (fields : FinanceFields) :
    List FinanceDoc × InsertResult :=
  ((insertOne store fields).1, ⟨true, (insertOne store fields).2⟩)

/-- Handler of the list route; the store is only read. -/
def listFinanceHandler (store : List FinanceDoc) :
    List FinanceDoc × List FinanceDoc :=
  (store, store)

/-- Message of the exception the ObjectId constructor throws. -/
def bsonErrorMsg : String := "BSONError: input must be a 24 character hex string"

/-- Handler of the single-record route: build an ObjectId from the path
parameter and look the record up. A malformed id makes the constructor
throw; the handler has no try-catch, so the rejection escapes and no
response is ever sent, modelled by the error case. -/
def getFinanceHandler (store : List FinanceDoc) (idStr : String) :
    List FinanceDoc × Except String (Option FinanceDoc) :=
  (store,
   match parseObjectId idStr with
   | none => Except.error bsonErrorMsg
   | some oid => Except.ok (findOne store oid))

/-- Handler of the delete route; a malformed id throws like above. -/
def deleteFinanceHandler (store : List FinanceDoc) (idStr : String) :
    List FinanceDoc × Except String DeleteResult :=
  match parseObjectId idStr with
  | none => (store, Except.error bsonErrorMsg)
  | some oid => ((deleteOne store oid).1, Except.ok (deleteOne store oid).2)

/-- Handler of the patch route; a malformed id throws like above. -/
def editFinanceHandler (store : List FinanceDoc) (idStr : String)
    (patch : FinanceFields) : List FinanceDoc × Except String UpdateResult :=
  match parseObjectId idStr with
  | none => (store, Except.error bsonErrorMsg)
  | some oid => ((updateOne store oid patch).1, Except.ok (updateOne store oid patch).2)

/-! Helper lemmas about the sorting function used to model the sort stages. -/

theorem perm_insertSorted {α : Type} (le : α → α → Bool) (a : α) :
    ∀ l : List α, List.Perm (insertSorted le a l) (a :: l)
  | [] => List.Perm.refl _
  | b :: l => by
    rw [insertSorted]
    by_cases hab : le a b = true
    · rw [if_pos hab]
    · rw [if_neg hab]
      exact (List.Perm.cons b (perm_insertSorted le a l)).trans (List.Perm.swap a b l)

theorem perm_sortBy {α : Type} (le : α → α → Bool) :
    ∀ l : List α, List.Perm (sortBy le l) l
  | [] => List.Perm.refl _
  | a :: l =>
    (perm_insertSorted le a (sortBy le l)).trans (List.Perm.cons a (perm_sortBy le l))

theorem pairwise_insertSorted {α : Type} {le : α → α → Bool}
    (htrans : ∀ a b c, le a b = true → le b c = true → le a c = true)
    (htotal : ∀ a b, le a b = true ∨ le b a = true) (a : α) :
    ∀ l : List α, l.Pairwise (fun x y => le x y = true) →
      (insertSorted le a l).Pairwise (fun x y => le x y = true)
  | [], _ => by simp [insertSorted]
  | b :: l, h => by
    rw [List.pairwise_cons] at h
    obtain ⟨hb, hl⟩ := h
    rw [insertSorted]
    by_cases hab : le a b = true
    · rw [if_pos hab, List.pairwise_cons]
      refine ⟨?_, List.pairwise_cons.mpr ⟨hb, hl⟩⟩
      intro x hx
      rcases List.mem_cons.mp hx with rfl | hx2
      · exact hab
      · exact htrans a b x hab (hb x hx2)
    · rw [if_neg hab, List.pairwise_cons]
      have hba : le b a = true := (htotal a b).resolve_left hab
      refine ⟨?_, pairwise_insertSorted htrans htotal a l hl⟩
      intro x hx
      have hx2 : x ∈ a :: l := (perm_insertSorted le a l).mem_iff.mp hx
      rcases List.mem_cons.mp hx2 with rfl | hx3
      · exact hba
      · exact hb x hx3

theorem pairwise_sortBy {α : Type} {le : α → α → Bool}
    (htrans : ∀ a b c, le a b = true → le b c = true → le a c = true)
    (htotal : ∀ a b, le a b = true ∨ le b a = true) :
    ∀ l : List α, (sortBy le l).Pairwise (fun x y => le x y = true)
  | [] => List.Pairwise.nil
  | a :: l => pairwise_insertSorted htrans htotal a _ (pairwise_sortBy htrans htotal l)

theorem monthLE_trans : ∀ a b c, monthLE a b = true → monthLE b c = true →
    monthLE a c = true := by
  intro a b c hab hbc
  simp only [monthLE, Bool.or_eq_true, Bool.and_eq_true, decide_eq_true_eq] at *
  omega

theorem monthLE_total : ∀ a b, monthLE a b = true ∨ monthLE b a = true := by
  intro a b
  simp only [monthLE, Bool.or_eq_true, Bool.and_eq_true, decide_eq_true_eq]
  omega

theorem amountGE_trans : ∀ a b c, amountGE a b = true → amountGE b c = true →
    amountGE a c = true := by
  intro a b c hab hbc
  simp only [amountGE, decide_eq_true_eq] at *
  omega

theorem amountGE_total : ∀ a b, amountGE a b = true ∨ amountGE b a = true := by
  intro a b
  simp only [amountGE, decide_eq_true_eq]
  omega

/-! Helper lemmas about the store operations. -/

theorem le_maxId : ∀ (store : List FinanceDoc), ∀ r ∈ store, r._id ≤ maxId store := by
  intro store
  induction store with
  | nil => intro r hr; cases hr
  | cons x s ih =>
    intro r hr
    rcases List.mem_cons.mp hr with rfl | hr2
    · exact le_max_left _ _
    · exact le_trans (ih r hr2) (le_max_right _ _)

theorem find?_eq_none_of_fresh (store : List FinanceDoc) :
    (store.find? fun r => r._id = freshId store) = none := by
  rw [List.find?_eq_none]
  intro r hr
  simp only [decide_eq_true_eq]
  have := le_maxId store r hr
  simp only [freshId]
  omega

theorem findOne_updateFirst (oid : Nat) (patch : FinanceFields) :
    ∀ store : List FinanceDoc,
      (store.find? fun r => r._id = oid).isSome = true →
      (updateFirst (fun r => r._id = oid) (setFields patch) store).find?
        (fun r => r._id = oid) = some ⟨oid, patch⟩
  | [], h => by simp [List.find?] at h
  | r :: rest, h => by
    by_cases hid : r._id = oid
    · rw [updateFirst, if_pos (by simpa using hid)]
      rw [List.find?_cons_of_pos _ (by simpa [setFields] using hid)]
      simp [setFields, hid]
    · rw [updateFirst, if_neg (by simpa using hid)]
      rw [List.find?_cons_of_neg _ (by simpa using hid)]
      rw [List.find?_cons_of_neg _ (by simpa using hid)] at h
      exact findOne_updateFirst oid patch rest h

/-- C1: for the empty record store the totalStats facet yields no group, the
response formatting reads a field of a missing group and throws, and the
route answers with a 500 error instead of the zero-valued object the design
calls for. -/
theorem empty_store_stats_throws :
    computeFinanceStats [] =
      Except.error "TypeError: cannot read totalExpense of undefined"
    ∧ (financeStatsHandler []).2 =
      StatsRouteResult.failure 500 "Error fetching finance stats" :=
  ⟨rfl, rfl⟩

/-- C3: a record whose type is neither income nor expense contributes zero
to the conditional expense and income sums every facet uses, while the
transaction count of the totalStats facet still counts it. -/
theorem unknown_type_excluded_from_totals (r : FinanceDoc) (l : List FinanceDoc)
    (h1 : r.data.type ≠ some "expense") (h2 : r.data.type ≠ some "income") :
    expenseContrib r = 0 ∧ incomeContrib r = 0
    ∧ sumExpense (r :: l) = sumExpense l
    ∧ sumIncome (r :: l) = sumIncome l
    ∧ totalStatsFacet (r :: l) = [⟨sumExpense l, sumIncome l, l.length + 1⟩] := by
  have e0 : expenseContrib r = 0 := by simp [expenseContrib, h1]
  have i0 : incomeContrib r = 0 := by simp [incomeContrib, h2]
  have se : sumExpense (r :: l) = sumExpense l := by simp [sumExpense, e0]
  have si : sumIncome (r :: l) = sumIncome l := by simp [sumIncome, i0]
  exact ⟨e0, i0, se, si, by simp [totalStatsFacet, se, si]⟩

theorem unknown_type_excluded_from_totals_witness :
    expenseContrib ⟨1, ⟨none, some 25, none, none, some "misc", some "transfer"⟩⟩ = 0
    ∧ incomeContrib ⟨1, ⟨none, some 25, none, none, some "misc", some "transfer"⟩⟩ = 0
    ∧ sumExpense (⟨1, ⟨none, some 25, none, none, some "misc", some "transfer"⟩⟩ :: []) = sumExpense []
    ∧ sumIncome (⟨1, ⟨none, some 25, none, none, some "misc", some "transfer"⟩⟩ :: []) = sumIncome []
    ∧ totalStatsFacet (⟨1, ⟨none, some 25, none, none, some "misc", some "transfer"⟩⟩ :: []) =
        [⟨sumExpense [], sumIncome [], ([] : List FinanceDoc).length + 1⟩] :=
  unknown_type_excluded_from_totals _ [] (by decide) (by decide)

/-- C5: updating an existing record replaces all six mutable fields with the
patch values, so a field absent from the patch is stored as empty rather
than left unchanged, and the update matches exactly one document. -/
theorem update_replaces_all_fields (store : List FinanceDoc) (oid : Nat)
    (patch : FinanceFields)
    (h : (store.find? fun r => r._id = oid).isSome = true) :
    ∃ d, findOne (updateOne store oid patch).1 oid = some d
      ∧ d._id = oid
      ∧ d.data.title = patch.title
      ∧ d.data.amount = patch.amount
      ∧ d.data.description = patch.description
      ∧ d.data.date = patch.date
      ∧ d.data.category = patch.category
      ∧ d.data.type = patch.type
      ∧ (updateOne store oid patch).2.matchedCount = 1 := by
  refine ⟨⟨oid, patch⟩, findOne_updateFirst oid patch store h,
    rfl, rfl, rfl, rfl, rfl, rfl, rfl, ?_⟩
  have hany : store.any (fun r => r._id = oid) = true := by
    rw [List.any_eq_true]
    obtain ⟨x, hx, hpx⟩ := List.find?_isSome.mp h
    exact ⟨x, hx, hpx⟩
  simp [updateOne, hany]

theorem update_replaces_all_fields_witness :
    ∃ d, findOne (updateOne
        [⟨7, ⟨some "old", some 1, some "olddesc", some "2024-01-01", some "food", some "expense"⟩⟩]
        7 ⟨some "new", some 2, none, none, none, none⟩).1 7 = some d
      ∧ d._id = 7
      ∧ d.data.title = (⟨some "new", some 2, none, none, none, none⟩ : FinanceFields).title
      ∧ d.data.amount = (⟨some "new", some 2, none, none, none, none⟩ : FinanceFields).amount
      ∧ d.data.description = (⟨some "new", some 2, none, none, none, none⟩ : FinanceFields).description
      ∧ d.data.date = (⟨some "new", some 2, none, none, none, none⟩ : FinanceFields).date
      ∧ d.data.category = (⟨some "new", some 2, none, none, none, none⟩ : FinanceFields).category
      ∧ d.data.type = (⟨some "new", some 2, none, none, none, none⟩ : FinanceFields).type
      ∧ (updateOne
        [⟨7, ⟨some "old", some 1, some "olddesc", some "2024-01-01", some "food", some "expense"⟩⟩]
        7 ⟨some "new", some 2, none, none, none, none⟩).2.matchedCount = 1 :=
  update_replaces_all_fields _ 7 _ (by decide)

/-- C6 counterexample: for the malformed id "abc" the single-record route
does not produce any client-error response; the ObjectId constructor throws
and the rejection escapes the handler, modelled by the error case. -/
theorem malformed_id_no_client_error_cex :
    parseObjectId "abc" = none
    ∧ (getFinanceHandler [] "abc").2 = Except.error bsonErrorMsg :=
  ⟨by decide, rfl⟩

/-- C6 amended: for every id the ObjectId constructor rejects, the exception
escapes the handler uncaught, so no response at all is sent, and the store
is unchanged. -/
theorem malformed_id_uncaught (store : List FinanceDoc) (idStr : String)
    (h : parseObjectId idStr = none) :
    (getFinanceHandler store idStr).2 = Except.error bsonErrorMsg
    ∧ (getFinanceHandler store idStr).1 = store :=
  ⟨by simp [getFinanceHandler, h], rfl⟩

theorem malformed_id_uncaught_witness :
    (getFinanceHandler [] "zz").2 = Except.error bsonErrorMsg
    ∧ (getFinanceHandler [] "zz").1 = [] :=
  malformed_id_uncaught [] "zz" (by decide)

/-- C7: looking a record up by the id assigned by an insert, with no other
write in between, returns exactly the inserted fields plus that id. -/
theorem get_after_create_returns_input (store : List FinanceDoc)
    (fields : FinanceFields) :
    findOne (insertOne store fields).1 (insertOne store fields).2 =
      some ⟨(insertOne store fields).2, fields⟩ := by
  show (store ++ [(⟨freshId store, fields⟩ : FinanceDoc)]).find?
        (fun r => r._id = freshId store)
      = some (⟨freshId store, fields⟩ : FinanceDoc)
  rw [List.find?_append, find?_eq_none_of_fresh]
  simp [List.find?]

/-- C8: deleting a well-formed id that is not in the store acknowledges with
a deleted count of zero and leaves the store unchanged. -/
theorem delete_absent_id_zero_count (store : List FinanceDoc) (idStr : String)
    (oid : Nat) (hp : parseObjectId idStr = some oid)
    (h : ∀ r ∈ store, r._id ≠ oid) :
    deleteFinanceHandler store idStr = (store, Except.ok ⟨true, 0⟩) := by
  have h1 : store.eraseP (fun r => r._id = oid) = store :=
    List.eraseP_of_forall_not (by intro a ha; simpa using h a ha)
  have h2 : store.any (fun r => r._id = oid) = false := by
    rw [List.any_eq_false]; intro r hr; simpa using h r hr
  simp [deleteFinanceHandler, hp, deleteOne, h1, h2]

theorem delete_absent_id_zero_count_witness :
    deleteFinanceHandler [] "000000000000000000000000" = ([], Except.ok ⟨true, 0⟩) :=
  delete_absent_id_zero_count [] "000000000000000000000000" 0 (by decide) (by decide)

/-- C10: the list, single-record, finance-stats and category-stats routes
only read the store; the stored records are the same before and after. -/
theorem read_routes_leave_store_unchanged :
    ∀ (store : List FinanceDoc) (idStr : String),
      (listFinanceHandler store).1 = store
      ∧ (getFinanceHandler store idStr).1 = store
      ∧ (financeStatsHandler store).1 = store
      ∧ (categoryStatsHandler store).1 = store :=
  fun _ _ => ⟨rfl, rfl, rfl, rfl⟩

/-- C2: when every date parses under the strict format, the monthly facet
succeeds, its list is sorted ascending by year then month, every entry
carries the conditional sums over exactly the records whose parsed date
falls in that year and month, and every record falls into some entry. -/
theorem monthly_stats_sorted_and_grouped (l : List FinanceDoc)
    (h : ∀ r ∈ l, (recordYM r).isSome = true) :
    ∃ ms, monthlyStatsFacet l = Except.ok ms
      ∧ ms.Pairwise (fun a b =>
          a.year < b.year ∨ (a.year = b.year ∧ a.month ≤ b.month))
      ∧ (∀ e ∈ ms,
          e.totalExpense =
            sumExpense (l.filter fun r => recordYM r = some (e.year, e.month))
          ∧ e.totalIncome =
            sumIncome (l.filter fun r => recordYM r = some (e.year, e.month)))
      ∧ (∀ r ∈ l, ∃ e ∈ ms, recordYM r = some (e.year, e.month)) := by
  have hall : l.all (fun r => (recordYM r).isSome) = true := by
    rw [List.all_eq_true]; exact h
  refine ⟨sortBy monthLE (monthlyGroups l), by simp [monthlyStatsFacet, hall],
    ?_, ?_, ?_⟩
  · refine List.Pairwise.imp ?_
      (pairwise_sortBy monthLE_trans monthLE_total (monthlyGroups l))
    intro a b hab
    simpa only [monthLE, Bool.or_eq_true, Bool.and_eq_true,
      decide_eq_true_eq] using hab
  · intro e he
    have he2 : e ∈ monthlyGroups l :=
      (perm_sortBy monthLE (monthlyGroups l)).mem_iff.mp he
    obtain ⟨ym, hym, rfl⟩ := List.mem_map.mp he2
    obtain ⟨y, m⟩ := ym
    exact ⟨rfl, rfl⟩
  · intro r hr
    obtain ⟨ym, hym⟩ := Option.isSome_iff_exists.mp (h r hr)
    refine ⟨monthEntry l ym, ?_, ?_⟩
    · exact (perm_sortBy monthLE (monthlyGroups l)).mem_iff.mpr
        (List.mem_map_of_mem _
          (List.mem_dedup.mpr (List.mem_filterMap.mpr ⟨r, hr, hym⟩)))
    · obtain ⟨y, m⟩ := ym
      exact hym

theorem monthly_stats_sorted_and_grouped_witness :
    ∃ ms, monthlyStatsFacet
        [⟨1, ⟨none, some 100, none, some "2024-02-10", some "food", some "expense"⟩⟩,
         ⟨2, ⟨none, some 50, none, some "2024-01-20", some "salary", some "income"⟩⟩]
        = Except.ok ms
      ∧ ms.Pairwise (fun a b =>
          a.year < b.year ∨ (a.year = b.year ∧ a.month ≤ b.month))
      ∧ (∀ e ∈ ms,
          e.totalExpense = sumExpense
            ([⟨1, ⟨none, some 100, none, some "2024-02-10", some "food", some "expense"⟩⟩,
              ⟨2, ⟨none, some 50, none, some "2024-01-20", some "salary", some "income"⟩⟩].filter
              fun r => recordYM r = some (e.year, e.month))
          ∧ e.totalIncome = sumIncome
            ([⟨1, ⟨none, some 100, none, some "2024-02-10", some "food", some "expense"⟩⟩,
              ⟨2, ⟨none, some 50, none, some "2024-01-20", some "salary", some "income"⟩⟩].filter
              fun r => recordYM r = some (e.year, e.month)))
      ∧ (∀ r ∈
          [⟨1, ⟨none, some 100, none, some "2024-02-10", some "food", some "expense"⟩⟩,
           ⟨2, ⟨none, some 50, none, some "2024-01-20", some "salary", some "income"⟩⟩],
          ∃ e ∈ ms, recordYM r = some (e.year, e.month)) :=
  monthly_stats_sorted_and_grouped _ (by decide)

theorem categoryPipeline_spec (ty : String) (l : List FinanceDoc) :
    (categoryPipeline ty l).Pairwise (fun a b => b.totalAmount ≤ a.totalAmount)
    ∧ ∀ e ∈ categoryPipeline ty l,
        e.categoryCount = (l.filter fun r =>
          r.data.category = e._id ∧ r.data.type = some ty).length
        ∧ e.totalAmount = ((l.filter fun r =>
          r.data.category = e._id ∧ r.data.type = some ty).map amountOf).sum := by
  have hfilter : ∀ c : Option String,
      ((l.filter fun r => r.data.type = some ty).filter fun r => r.data.category = c)
        = l.filter fun r => r.data.category = c ∧ r.data.type = some ty := by
    intro c
    rw [List.filter_filter]
    apply List.filter_congr
    intro r _
    exact (Bool.decide_and _ _).symm
  constructor
  · refine List.Pairwise.imp ?_
      (pairwise_sortBy amountGE_trans amountGE_total (categoryGroups ty l))
    intro a b hab
    simpa only [amountGE, decide_eq_true_eq] using hab
  · intro e he
    have he2 : e ∈ categoryGroups ty l :=
      (perm_sortBy amountGE (categoryGroups ty l)).mem_iff.mp he
    obtain ⟨c, hc, rfl⟩ := List.mem_map.mp he2
    constructor
    · show ((l.filter fun r => r.data.type = some ty).filter
          fun r => r.data.category = c).length = _
      rw [hfilter]
    · show (((l.filter fun r => r.data.type = some ty).filter
          fun r => r.data.category = c).map amountOf).sum = _
      rw [hfilter]

/-- C4: each category ranking list is sorted descending by totalAmount, and
every entry counts and sums exactly the records of the matching type in
that category. -/
theorem category_rankings_sorted_and_correct (l : List FinanceDoc) :
    ((expenseStatsPipeline l).Pairwise (fun a b => b.totalAmount ≤ a.totalAmount)
      ∧ ∀ e ∈ expenseStatsPipeline l,
          e.categoryCount = (l.filter fun r =>
            r.data.category = e._id ∧ r.data.type = some "expense").length
          ∧ e.totalAmount = ((l.filter fun r =>
            r.data.category = e._id ∧ r.data.type = some "expense").map amountOf).sum)
    ∧ ((incomeStatsPipeline l).Pairwise (fun a b => b.totalAmount ≤ a.totalAmount)
      ∧ ∀ e ∈ incomeStatsPipeline l,
          e.categoryCount = (l.filter fun r =>
            r.data.category = e._id ∧ r.data.type = some "income").length
          ∧ e.totalAmount = ((l.filter fun r =>
            r.data.category = e._id ∧ r.data.type = some "income").map amountOf).sum) :=
  ⟨categoryPipeline_spec "expense" l, categoryPipeline_spec "income" l⟩

theorem category_rankings_sorted_and_correct_witness :
    (expenseStatsPipeline
        [⟨1, ⟨none, some 100, none, none, some "food", some "expense"⟩⟩,
         ⟨2, ⟨none, some 200, none, none, some "rent", some "expense"⟩⟩]).Pairwise
      (fun a b => b.totalAmount ≤ a.totalAmount)
    ∧ (⟨some "rent", 1, 200⟩ : CategoryStat).categoryCount =
        (([⟨1, ⟨none, some 100, none, none, some "food", some "expense"⟩⟩,
           ⟨2, ⟨none, some 200, none, none, some "rent", some "expense"⟩⟩] :
          List FinanceDoc).filter
          fun r => r.data.category = (⟨some "rent", 1, 200⟩ : CategoryStat)._id
            ∧ r.data.type = some "expense").length :=
  ⟨(category_rankings_sorted_and_correct
      [⟨1, ⟨none, some 100, none, none, some "food", some "expense"⟩⟩,
       ⟨2, ⟨none, some 200, none, none, some "rent", some "expense"⟩⟩]).1.1,
   ((category_rankings_sorted_and_correct
      [⟨1, ⟨none, some 100, none, none, some "food", some "expense"⟩⟩,
       ⟨2, ⟨none, some 200, none, none, some "rent", some "expense"⟩⟩]).1.2
      ⟨some "rent", 1, 200⟩ (by decide)).1⟩

/-- C9: a record whose date does not parse makes the monthly facet and hence
the whole stats computation fail, and the route handler catches the failure
and answers with a 500 status and a short message, leaving the store as it
was; the record is not silently skipped, since no stats are produced. -/
theorem agg_failure_reports_500 (store : List FinanceDoc)
    (h : ∃ r ∈ store, recordYM r = none) :
    (∃ e, computeFinanceStats store = Except.error e)
    ∧ (financeStatsHandler store).2 =
        StatsRouteResult.failure 500 "Error fetching finance stats"
    ∧ (financeStatsHandler store).1 = store := by
  obtain ⟨r, hr, hn⟩ := h
  have hall : store.all (fun r => (recordYM r).isSome) = false := by
    rw [List.all_eq_false]
    exact ⟨r, hr, by simp [hn]⟩
  have hm : monthlyStatsFacet store =
      Except.error "an invalid date string was specified" := by
    simp [monthlyStatsFacet, hall]
  have hc : computeFinanceStats store =
      Except.error "an invalid date string was specified" := by
    simp [computeFinanceStats, hm]
  exact ⟨⟨_, hc⟩, by simp [financeStatsHandler, hc], rfl⟩

theorem agg_failure_reports_500_witness :
    (∃ e, computeFinanceStats
        [⟨1, ⟨none, some 5, none, some "2024-13-02", some "misc", some "expense"⟩⟩]
        = Except.error e)
    ∧ (financeStatsHandler
        [⟨1, ⟨none, some 5, none, some "2024-13-02", some "misc", some "expense"⟩⟩]).2 =
        StatsRouteResult.failure 500 "Error fetching finance stats"
    ∧ (financeStatsHandler
        [⟨1, ⟨none, some 5, none, some "2024-13-02", some "misc", some "expense"⟩⟩]).1 =
        [⟨1, ⟨none, some 5, none, some "2024-13-02", some "misc", some "expense"⟩⟩] :=
  agg_failure_reports_500 _ (by decide)
